import Mathlib

/-!
Verification of the compose-manifest generator in
`src/scripts/generate-compose.py` (klever-labs/workflows).

The Python functions `parse_array_config`, `generate_update_config`,
`generate_healthcheck` and `generate_compose` are embedded shallowly as
executable Lean definitions.  Python dicts keyed by service name are
modelled as association lists (`List (String × _)`, first match wins, as
produced by the insertion-ordered source); Python sets are modelled as
insertion-ordered duplicate-free lists (only membership in them is ever
examined below); numeric YAML fields keep their exact values, with the
float field `max_failure_ratio` carried as a rational number.

Parts of the generator that none of the examined claims touch are left
out of the per-service record: top-level network declarations, resource
limits, volume handling, placement constraints, logging options,
restart/rollback blocks, and the explicitly mapped `service_secrets`
(source lines 536-557, which only ever append to the secret lists and
never touch the environment list).  Every field that is modelled follows
the source line by line.
-/

/-- Python `str.lower()` restricted to the ASCII case mapping used by the
keys and patterns in this program. -/
def pyLower (s : String) : String := ⟨s.data.map Char.toLower⟩

/-- Membership of `pat` as a contiguous substring of a character list,
mirroring Python's `pat in hay` on strings. -/
def listHasSub (pat : List Char) : List Char → Bool
  | [] => pat.isEmpty
  | c :: t => pat.isPrefixOf (c :: t) || listHasSub pat t

/-- Python's `pat in s` substring test on strings. -/
def strHasSub (s pat : String) : Bool := listHasSub pat.data s.data

/-- Python truthiness of an optional string (`None` and `""` are falsy). -/
def optTruthy : Option String → Bool
  | none => false
  | some s => !s.isEmpty

/-- Python `a if a else b` for an optional string `a` (lines 465, 563). -/
def pyOr (o : Option String) (alt : String) : String :=
  match o with
  | some s => if s.isEmpty then alt else s
  | none => alt

/-- Python `str.strip()` on ASCII whitespace, written with structural
recursion so that it evaluates inside the kernel. -/
def pyStrip (s : String) : String :=
  ⟨((s.data.dropWhile Char.isWhitespace).reverse.dropWhile Char.isWhitespace).reverse⟩

/-- Rendering used by the f-string `f'DOMAIN={fqdn_full}'`: Python prints
`None` for an absent value and the string itself otherwise. -/
def pyStrOpt : Option String → String
  | none => "None"
  | some s => s

/-- First-match lookup in an association list, mirroring `dict.get`. -/
def lookup? {α : Type} (m : List (String × α)) (k : String) : Option α :=
  (m.find? (fun p => p.1 == k)).map (fun p => p.2)

/-- The sensitive-name heuristic of lines 519-522: the lowercased key
contains one of the substrings `password`, `secret`, `key`, `token`. -/
def sensitiveKey (key : String) : Bool :=
  ["password", "secret", "key", "token"].any (fun p => strHasSub (pyLower key) p)

/-- The full guard of line 519: `use_secrets and env == 'prod' and any(...)`. -/
def secretCond (u : Bool) (env key : String) : Bool :=
  u && env == "prod" && sensitiveKey key

/-- One entry of `deploy.update_config` (`generate_update_config`,
lines 264-292).  `max_failure_ratio` is carried as the rational
`maxFailureRatioQ`. -/
structure UpdateConfig where
  parallelism : Nat
  delay : String
  failure_action : String
  monitor : String
  maxFailureRatioQ : ℚ
  order : String
deriving DecidableEq, Repr

/-- Translation of `generate_update_config` (lines 264-292). -/
def generateUpdateConfig (_serviceName env strategy : String) : UpdateConfig :=
  if strategy = "rolling" then
    { parallelism := if env = "prod" then 1 else 2
      delay := if env = "prod" then "30s" else "10s"
      failure_action := "rollback"
      monitor := if env = "prod" then "5m" else "30s"
      maxFailureRatioQ := if env = "prod" then 1/10 else 3/10
      order := "stop-first" }
  else if strategy = "blue-green" then
    { parallelism := 999
      delay := "0s"
      failure_action := "rollback"
      monitor := "5m"
      maxFailureRatioQ := 0
      order := "start-first" }
  else
    { parallelism := 1
      delay := "5m"
      failure_action := "pause"
      monitor := "10m"
      maxFailureRatioQ := 1/10
      order := "start-first" }

/-- A health-check block (`generate_healthcheck`, lines 295-312).  Custom
per-service overrides found in `advanced_health` are returned verbatim,
so they are carried in the same record type. -/
structure Healthcheck where
  test : List String
  interval : String
  timeout : String
  retries : Nat
  start_period : String
deriving DecidableEq, Repr

/-- Translation of `generate_healthcheck` (lines 295-312). -/
def generateHealthcheck (port health_url serviceName : String)
    (advanced_health : List (String × Healthcheck)) : Healthcheck :=
  match lookup? advanced_health serviceName with
  | some h => h
  | none =>
    { test := ["CMD", "curl", "-f", "http://localhost:" ++ port ++ health_url]
      interval := "30s"
      timeout := "10s"
      retries := 5
      start_period := "60s" }

/-- The per-service subset of keys stored in `service_configs`
(`parse_array_config`, lines 80-93). -/
structure SvcConfig where
  expose : Option Bool := none
  networks : Option (List String) := none
  internal_port : Option String := none
deriving DecidableEq, Repr

/-- Per-service retry overrides (lines 434-436). -/
structure RetryCfg where
  attempts : Option Nat := none
  interval : Option String := none
deriving DecidableEq, Repr

/-- Per-service rate-limit overrides (lines 447-449). -/
structure RateLimitCfg where
  average : Option Nat := none
  burst : Option Nat := none
deriving DecidableEq, Repr

/-- One object of the array-format configuration consumed by
`parse_array_config`.  A field holding `none` models the JSON key being
absent.  The keys `volumes`, `resources`, `secrets` and `constraints`
are not modelled (no examined property depends on them). -/
structure ServiceDecl where
  service_name : Option String := none
  image : Option String := none
  expose : Option Bool := none
  domain : Option String := none
  port : Option Nat := none
  internal_port : Option Nat := none
  environment : Option (List (String × String)) := none
  networks : Option (List String) := none
  health_url : Option String := none
  retry : Option RetryCfg := none
  rate_limit : Option RateLimitCfg := none
  metrics_path : Option String := none
  health_check : Option Healthcheck := none
  replicas : Option Nat := none
  env : Option String := none
  fqdn : Option String := none
  health_checks : Option Bool := none
  resource_limits : Option Bool := none
  volume_persistence : Option Bool := none
  volume_dir : Option String := none
  enable_retry : Option Bool := none
  enable_rate_limit : Option Bool := none
  enable_monitoring : Option Bool := none
  enable_network_separation : Option Bool := none
  deployment_strategy : Option String := none
  use_secrets : Option Bool := none
  enable_logging : Option Bool := none
deriving DecidableEq, Repr

/-- The mutable `global_config` dict of lines 33-48 with its initial
default values. -/
structure GlobalConfig where
  replicas : Nat := 1
  env : String := "prod"
  fqdn : String := "example.com"
  health_checks : Bool := true
  resource_limits : Bool := true
  volume_persistence : Bool := false
  volume_dir : String := "/data"
  enable_retry : Bool := false
  enable_rate_limit : Bool := false
  enable_monitoring : Bool := false
  enable_network_separation : Bool := false
  deployment_strategy : String := "rolling"
  use_secrets : Bool := false
  enable_logging : Bool := true
deriving DecidableEq, Repr

/-- The accumulator state of the `for svc in config_array` loop of
`parse_array_config` (lines 16-50). -/
structure ParseState where
  services : List String := []
  images : List (String × String) := []
  domains : List String := []
  ports : List String := []
  service_envs : List (String × List (String × String)) := []
  service_configs : List (String × SvcConfig) := []
  health_urls : List String := []
  external_networks : List String := []
  retry_config : List (String × RetryCfg) := []
  rate_limit_config : List (String × RateLimitCfg) := []
  metrics_paths : List (String × String) := []
  advanced_health : List (String × Healthcheck) := []
  global_config : GlobalConfig := {}
deriving DecidableEq, Repr

/-- Python `str.replace('_', '-')` (line 70). -/
def pyUnderscoreToDash (s : String) : String :=
  ⟨s.data.map (fun c => if c = '_' then '-' else c)⟩

/-- The external-network classification of line 87:
`any(prefix in net for prefix in ['shared-', 'external-']) or '-db' in net`
(despite the variable name these are substring tests). -/
def isExternalNet (net : String) : Bool :=
  strHasSub net "shared-" || strHasSub net "external-" || strHasSub net "-db"

/-- Set-style insertion for `external_networks.add(net)` (line 88). -/
def setAdd (l : List String) (x : String) : List String :=
  if l.contains x then l else l ++ [x]

/-- The fold of the `update global config` loop (lines 129-135) for one
service declaration: every explicitly present global key overwrites the
shared default. -/
def updateGlobals (g : GlobalConfig) (svc : ServiceDecl) : GlobalConfig :=
  { replicas := svc.replicas.getD g.replicas
    env := svc.env.getD g.env
    fqdn := svc.fqdn.getD g.fqdn
    health_checks := svc.health_checks.getD g.health_checks
    resource_limits := svc.resource_limits.getD g.resource_limits
    volume_persistence := svc.volume_persistence.getD g.volume_persistence
    volume_dir := svc.volume_dir.getD g.volume_dir
    enable_retry := svc.enable_retry.getD g.enable_retry
    enable_rate_limit := svc.enable_rate_limit.getD g.enable_rate_limit
    enable_monitoring := svc.enable_monitoring.getD g.enable_monitoring
    enable_network_separation := svc.enable_network_separation.getD g.enable_network_separation
    deployment_strategy := svc.deployment_strategy.getD g.deployment_strategy
    use_secrets := svc.use_secrets.getD g.use_secrets
    enable_logging := svc.enable_logging.getD g.enable_logging }

/-- An optional per-service value keyed by the service name, as appended
by the `if 'key' in svc:` blocks of lines 76-127. -/
def optPair {α : Type} (name : String) (o : Option α) : List (String × α) :=
  match o with
  | some a => [(name, a)]
  | none => []

/-- The guard of line 65:
`svc.get('expose', True) and not ('worker' in name.lower() or 'job' in name.lower())`. -/
def exposedCollect (name : String) (svc : ServiceDecl) : Bool :=
  svc.expose.getD true
    && !(strHasSub (pyLower name) "worker" || strHasSub (pyLower name) "job")

/-- The domain appended for one service by lines 65-70 (explicit domain,
else a domain auto-generated from the name when a port is given). -/
def domainContrib (name : String) (svc : ServiceDecl) : List String :=
  if exposedCollect name svc then
    match svc.domain with
    | some d => [d]
    | none =>
      match svc.port with
      | some _ => [pyUnderscoreToDash name]
      | none => []
  else []

/-- The port appended for one service by lines 72-73. -/
def portContrib (name : String) (svc : ServiceDecl) : List String :=
  if exposedCollect name svc then
    match svc.port with
    | some p => [toString p]
    | none => []
  else []

/-- The `service_configs` entry appended by lines 80-93 (only when at
least one of the three keys is present). -/
def svcConfigContrib (name : String) (svc : ServiceDecl) : List (String × SvcConfig) :=
  if svc.expose.isSome || svc.networks.isSome || svc.internal_port.isSome then
    [(name, { expose := svc.expose
              networks := svc.networks
              internal_port := svc.internal_port.map toString })]
  else []

/-- The external-network additions of lines 83-88 for one service. -/
def extNetContrib (acc : List String) (svc : ServiceDecl) : List String :=
  match svc.networks with
  | some ns => ns.foldl (fun a net => if isExternalNet net then setAdd a net else a) acc
  | none => acc

/-- One iteration of the `parse_array_config` loop (lines 52-135), with
each state field updated by its contribution for this service.  Raising
`ValueError` is modelled by `Except.error` carrying the message. -/
def processSvc (st : ParseState) (svc : ServiceDecl) : Except String ParseState :=
  match svc.service_name with
  | none => .error "Each service must have a 'service_name' field"
  | some name =>
    match svc.image with
    | none => .error ("Service '" ++ name ++ "' must have an 'image' field")
    | some img =>
      .ok { services := st.services ++ [name]
            images := st.images ++ [(name, img)]
            domains := st.domains ++ domainContrib name svc
            ports := st.ports ++ portContrib name svc
            service_envs := st.service_envs ++ optPair name svc.environment
            service_configs := st.service_configs ++ svcConfigContrib name svc
            health_urls := st.health_urls ++ [svc.health_url.getD "/health"]
            external_networks := extNetContrib st.external_networks svc
            retry_config := st.retry_config ++ optPair name svc.retry
            rate_limit_config := st.rate_limit_config ++ optPair name svc.rate_limit
            metrics_paths := st.metrics_paths ++ optPair name svc.metrics_path
            advanced_health := st.advanced_health ++ optPair name svc.health_check
            global_config := updateGlobals st.global_config svc }

/-- The whole loop of `parse_array_config`, aborting at the first
`ValueError` like the Python `raise`. -/
def runParse (st : ParseState) : List ServiceDecl → Except String ParseState
  | [] => .ok st
  | svc :: rest =>
    match processSvc st svc with
    | .error e => .error e
    | .ok st' => runParse st' rest

/-- The guard of lines 143 and 145:
`any(service_configs.get(s, {}).get('expose', True) for s in services)`.
Note it consults only the explicit `expose` key and ignores the
worker/job name heuristic. -/
def exposeGuard (st : ParseState) : Bool :=
  st.services.any (fun s => (((lookup? st.service_configs s).getD {}).expose).getD true)

/-- The value `parse_array_config` returns (lines 148-166); the final
global defaults are kept as a nested record instead of being spread. -/
structure ParsedConfig where
  services : List String
  images : List (String × String)
  domains : List String
  ports : List String
  service_envs : List (String × List (String × String))
  service_configs : List (String × SvcConfig)
  health_urls : List String
  external_networks : List String
  retry_config : List (String × RetryCfg)
  rate_limit_config : List (String × RateLimitCfg)
  metrics_paths : List (String × String)
  advanced_health : List (String × Healthcheck)
  global_config : GlobalConfig
deriving DecidableEq, Repr

/-- Lines 137-166: discard the implicit networks from the external set,
apply the degenerate domain/port fallback, and package the result. -/
def finalize (st : ParseState) : ParsedConfig :=
  let ext := st.external_networks.filter
    (fun n => n ≠ "traefik-public" && n ≠ "backend" && n ≠ "database")
  let domains := if st.domains.isEmpty && exposeGuard st then ["app"] else st.domains
  let ports := if st.ports.isEmpty && exposeGuard st then ["8080"] else st.ports
  { services := st.services
    images := st.images
    domains := domains
    ports := ports
    service_envs := st.service_envs
    service_configs := st.service_configs
    health_urls := st.health_urls
    external_networks := ext
    retry_config := st.retry_config
    rate_limit_config := st.rate_limit_config
    metrics_paths := st.metrics_paths
    advanced_health := st.advanced_health
    global_config := st.global_config }

/-- Translation of `parse_array_config` (lines 14-166). -/
def parseArrayConfig (arr : List ServiceDecl) : Except String ParsedConfig :=
  match runParse {} arr with
  | .error e => .error e
  | .ok st => .ok (finalize st)

/-- Exposure resolution of lines 372-374: the explicit `expose` value from
the service config wins; otherwise the worker/job name heuristic turns
the default off. -/
def resolveExposure (cfgExpose : Option Bool) (svc : String) : Bool :=
  let isExposed := cfgExpose.getD true
  if !isExposed || strHasSub (pyLower svc) "worker" || strHasSub (pyLower svc) "job" then
    cfgExpose.getD false
  else isExposed

/-- The routing host of lines 383-385: assign `{domain}-{env}.{fqdn}` and
overwrite it with `{domain}.{fqdn}` in production. -/
def fqdnFull (domain env fqdn : String) : String :=
  let f := domain ++ "-" ++ env ++ "." ++ fqdn
  if env = "prod" then domain ++ "." ++ fqdn else f

/-- The arguments of `generate_compose` (lines 315-346) that feed the
modelled output fields, with the Python defaults. -/
structure ComposeArgs where
  services : List String
  images : List (String × String)
  domains : List String
  fqdn : String
  replicas : Nat
  ports : List String
  env : String
  health_enabled : Bool
  health_urls : List String
  service_envs : List (String × List (String × String))
  enable_retry : Bool := false
  enable_rate_limit : Bool := false
  enable_monitoring : Bool := false
  deployment_strategy : String := "rolling"
  use_secrets : Bool := false
  advanced_health : List (String × Healthcheck) := []
  enable_network_separation : Bool := false
  retry_config : List (String × RetryCfg) := []
  rate_limit_config : List (String × RateLimitCfg) := []
  metrics_paths : List (String × String) := []
  service_configs : List (String × SvcConfig) := []
deriving Repr

/-- Lines 377-385: domain, port and full host are set only when the
service is exposed and its index lies inside both positional lists. -/
def resolveDomainPort (g : ComposeArgs) (i : Nat) (isExposed : Bool) :
    Option String × Option String × Option String :=
  if isExposed ∧ i < g.domains.length ∧ i < g.ports.length then
    let d := g.domains.getD i ""
    (some d, some (g.ports.getD i ""), some (fqdnFull d g.env g.fqdn))
  else (none, none, none)

/-- Lines 389-408: resolved network membership of one service. -/
def serviceNetworks (g : ComposeArgs) (svc : String) (svcCfg : SvcConfig)
    (isExposed : Bool) : List String :=
  let sn :=
    match svcCfg.networks with
    | some ns => ns
    | none =>
      (if isExposed then ["traefik-public"] else []) ++
      (if g.enable_network_separation then
        (if svc = "api" || svc = "backend" || strHasSub (pyLower svc) "api" then
          ["backend"]
        else if svc = "worker" || svc = "job"
            || strHasSub (pyLower svc) "worker" || strHasSub (pyLower svc) "job" then
          ["backend"]
        else [])
      else [])
  if sn.isEmpty then
    if isExposed then ["traefik-public"]
    else [if g.enable_network_separation then "backend" else "traefik-public"]
  else sn

/-- Lines 414-456: the Traefik routing labels of an exposed service,
including the optional retry and rate-limit middlewares and the final
comma-joined middleware label. -/
def buildLabels (g : ComposeArgs) (svc : String) (isExposed : Bool)
    (port fq : Option String) : List String :=
  if isExposed && optTruthy port && optTruthy fq then
    let p := port.getD ""
    let f := fq.getD ""
    let base :=
      [ "traefik.enable=true"
      , "traefik.swarm.network=traefik-public"
      , "traefik.http.routers." ++ svc ++ ".rule=Host(`" ++ f ++ "`)"
      , "traefik.http.routers." ++ svc ++ ".entrypoints=websecure"
      , "traefik.http.routers." ++ svc ++ ".tls=true"
      , "traefik.http.routers." ++ svc ++ ".tls.certresolver=cloudflare"
      , "traefik.http.services." ++ svc ++ ".loadbalancer.server.port=" ++ p
      , "traefik.http.routers." ++ svc ++ ".service=" ++ svc ]
    let retryPart : List String × List String :=
      if g.enable_retry then
        let att := ((lookup? g.retry_config svc).bind RetryCfg.attempts).getD 3
        let inter := ((lookup? g.retry_config svc).bind RetryCfg.interval).getD "100ms"
        ( [ "traefik.http.middlewares." ++ svc ++ "-retry.retry.attempts=" ++ toString att
          , "traefik.http.middlewares." ++ svc ++ "-retry.retry.initialinterval=" ++ inter ]
        , [svc ++ "-retry"] )
      else ([], [])
    let ratePart : List String × List String :=
      if g.enable_rate_limit then
        let avg := ((lookup? g.rate_limit_config svc).bind RateLimitCfg.average).getD 100
        let burst := ((lookup? g.rate_limit_config svc).bind RateLimitCfg.burst).getD 50
        ( [ "traefik.http.middlewares." ++ svc ++ "-ratelimit.ratelimit.average=" ++ toString avg
          , "traefik.http.middlewares." ++ svc ++ "-ratelimit.ratelimit.burst=" ++ toString burst ]
        , [svc ++ "-ratelimit"] )
      else ([], [])
    let middlewares := ["secureHeaders@file"] ++ retryPart.2 ++ ratePart.2
    base ++ retryPart.1 ++ ratePart.1 ++
      ["traefik.http.routers." ++ svc ++ ".middlewares=" ++ String.intercalate "," middlewares]
  else []

/-- Lines 459-473: Prometheus scrape labels, appended when monitoring is
enabled regardless of exposure. -/
def monitorLabels (g : ComposeArgs) (svc : String) (port : Option String)
    (svcCfg : SvcConfig) : List String :=
  if g.enable_monitoring then
    let mPath := (lookup? g.metrics_paths svc).getD "/metrics"
    let mPort := pyOr port (svcCfg.internal_port.getD "8080")
    [ "prometheus.io/scrape=true"
    , "prometheus.io/port=" ++ mPort
    , "prometheus.io/path=" ++ mPath
    , "prometheus.io/job=" ++ svc
    , "service.name=" ++ svc ]
  else []

/-- A secret mount appended to a service's `secrets` list
(lines 524-528); `mode` is `0o400`. -/
structure SecretMount where
  source : String
  target : String
  mode : Nat
deriving DecidableEq, Repr

/-- The environment entries produced by the loop of lines 517-533: one
string per custom entry, either the `_FILE` pointer (secret branch) or
the plain `KEY=VALUE`. -/
def envEntries (u : Bool) (env : String) (custom : List (String × String)) : List String :=
  custom.map (fun kv =>
    if secretCond u env kv.1 then kv.1 ++ "_FILE=/run/secrets/" ++ pyLower kv.1
    else kv.1 ++ "=" ++ kv.2)

/-- The secret mounts appended by the same loop (lines 524-528). -/
def envMounts (u : Bool) (env svc : String) (custom : List (String × String)) :
    List SecretMount :=
  custom.filterMap (fun kv =>
    if secretCond u env kv.1 then
      some { source := svc ++ "_" ++ pyLower kv.1
             target := "/run/secrets/" ++ pyLower kv.1
             mode := 0o400 }
    else none)

/-- The external secret names registered at the top level by the same
loop (line 529). -/
def envRegs (u : Bool) (env svc : String) (custom : List (String × String)) : List String :=
  custom.filterMap (fun kv =>
    if secretCond u env kv.1 then some (svc ++ "_" ++ pyLower kv.1) else none)

/-- Lines 559-566: the health check attached to a service entry. -/
def healthcheckFor (g : ComposeArgs) (i : Nat) (svc : String) (port : Option String)
    (svcCfg : SvcConfig) : Option Healthcheck :=
  if g.health_enabled then
    let url :=
      if i < g.health_urls.length then pyStrip (g.health_urls.getD (i % g.health_urls.length) "")
      else "/health"
    let healthPort := pyOr port (svcCfg.internal_port.getD "8080")
    some (generateHealthcheck healthPort url svc g.advanced_health)
  else none

/-- The modelled fields of one generated service entry (`config` of
lines 475-617). -/
structure ServiceEntry where
  image : String
  networks : List String
  environment : List String
  labels : List String
  replicas : Nat
  update_config : UpdateConfig
  secrets : List SecretMount
  healthcheck : Option Healthcheck
deriving DecidableEq, Repr

/-- The body of the `for i, svc in enumerate(services)` loop
(lines 365-619) for one service, producing the modelled entry fields. -/
def buildEntry (g : ComposeArgs) (i : Nat) (svc : String) : ServiceEntry :=
  let svcCfg := (lookup? g.service_configs svc).getD {}
  let isExposed := resolveExposure svcCfg.expose svc
  let dpf := resolveDomainPort g i isExposed
  let port := dpf.2.1
  let fq := dpf.2.2
  let custom := (lookup? g.service_envs svc).getD []
  { image := (lookup? g.images svc).getD "nginx:latest"
    networks := serviceNetworks g svc svcCfg isExposed
    environment :=
      ["SERVICE_NAME=" ++ svc, "ENVIRONMENT=" ++ g.env, "DOMAIN=" ++ pyStrOpt fq]
        ++ envEntries g.use_secrets g.env custom
    labels := buildLabels g svc isExposed port fq ++ monitorLabels g svc port svcCfg
    replicas := g.replicas
    update_config := generateUpdateConfig svc g.env g.deployment_strategy
    secrets := envMounts g.use_secrets g.env svc custom
    healthcheck := healthcheckFor g i svc port svcCfg }

/-- The modelled compose output: the ordered service entries and the
names of the externally managed secrets registered at the top level. -/
structure Compose where
  services : List (String × ServiceEntry)
  secrets : List String
deriving DecidableEq, Repr

/-- Translation of `generate_compose` (lines 315-621) restricted to the
modelled fields.  Service names are stripped (line 366) before use. -/
def generateCompose (g : ComposeArgs) : Compose :=
  { services := g.services.enum.map (fun p => (pyStrip p.2, buildEntry g p.1 (pyStrip p.2)))
    secrets :=
      (g.services.map (fun s =>
        envRegs g.use_secrets g.env (pyStrip s) ((lookup? g.service_envs (pyStrip s)).getD []))).flatten }

/-- The `--config-file` path of `main` (lines 689-844) with every
command-line option left at its default, so that all values flow from
the array-format configuration. -/
def composeFromArray (arr : List ServiceDecl) : Except String Compose :=
  match parseArrayConfig arr with
  | .error e => .error e
  | .ok cfg =>
    .ok (generateCompose
      { services := cfg.services
        images := cfg.images
        domains := cfg.domains
        fqdn := cfg.global_config.fqdn
        replicas := cfg.global_config.replicas
        ports := cfg.ports
        env := cfg.global_config.env
        health_enabled := cfg.global_config.health_checks
        health_urls := cfg.health_urls
        service_envs := cfg.service_envs
        enable_retry := cfg.global_config.enable_retry
        enable_rate_limit := cfg.global_config.enable_rate_limit
        enable_monitoring := cfg.global_config.enable_monitoring
        deployment_strategy := cfg.global_config.deployment_strategy
        use_secrets := cfg.global_config.use_secrets
        advanced_health := cfg.advanced_health
        enable_network_separation := cfg.global_config.enable_network_separation
        retry_config := cfg.retry_config
        rate_limit_config := cfg.rate_limit_config
        metrics_paths := cfg.metrics_paths
        service_configs := cfg.service_configs })

/-- The entry compiled for a given service name, read off an
`Except`-wrapped compose result (first occurrence wins, matching the
dict keying of `compose['services'][svc]`). -/
def svcEntry? (r : Except String Compose) (nm : String) : Option ServiceEntry :=
  match r with
  | .ok c => (c.services.find? (fun p => p.1 == nm)).map (fun p => p.2)
  | .error _ => none

/-- The health check of the `i`-th compiled service entry. -/
def hcAt (c : Compose) (i : Nat) : Option (Option Healthcheck) :=
  (c.services.get? i).map (fun p => p.2.healthcheck)

/-- The replica count of the `i`-th compiled service entry of an
`Except`-wrapped compose result. -/
def replicasAt (r : Except String Compose) (i : Nat) : Option Nat :=
  match r with
  | .ok c => (c.services.get? i).map (fun p => p.2.replicas)
  | .error _ => none

/-- The domain list of an `Except`-wrapped normalization result. -/
def parsedDomains (r : Except String ParsedConfig) : List String :=
  match r with
  | .ok c => c.domains
  | .error _ => []

/-- The port list of an `Except`-wrapped normalization result. -/
def parsedPorts (r : Except String ParsedConfig) : List String :=
  match r with
  | .ok c => c.ports
  | .error _ => []

/-- The environment list of the `i`-th compiled service entry. -/
def envAt (c : Compose) (i : Nat) : List String :=
  match c.services.get? i with
  | some p => p.2.environment
  | none => []

/-- The error message of a failed normalization, if any. -/
def errOf (r : Except String ParsedConfig) : Option String :=
  match r with
  | .error e => some e
  | .ok _ => none

/-- The round-trip input of the specification:
`[{service_name:"api", image:"x:1", port:8080, domain:"api"}]`. -/
def c5Arr : List ServiceDecl :=
  [{ service_name := some "api", image := some "x:1", port := some 8080, domain := some "api" }]

/-- The label list the generator emits for the round-trip input. -/
def c5Labels : List String :=
  [ "traefik.enable=true"
  , "traefik.swarm.network=traefik-public"
  , "traefik.http.routers.api.rule=Host(`api.example.com`)"
  , "traefik.http.routers.api.entrypoints=websecure"
  , "traefik.http.routers.api.tls=true"
  , "traefik.http.routers.api.tls.certresolver=cloudflare"
  , "traefik.http.services.api.loadbalancer.server.port=8080"
  , "traefik.http.routers.api.service=api"
  , "traefik.http.routers.api.middlewares=secureHeaders@file" ]

/-- An array input whose first declaration (a worker) contributes no
domain/port entry while the second is exposed with an explicit domain
and port. -/
def c9Arr : List ServiceDecl :=
  [ { service_name := some "worker1", image := some "w" }
  , { service_name := some "api", image := some "a", domain := some "api", port := some 8080 } ]

/-- An array input with one exposed service that owns the only collected
domain/port and a second explicitly exposed service with neither. -/
def c6CexArr : List ServiceDecl :=
  [ { service_name := some "api", image := some "x", domain := some "api", port := some 80 }
  , { service_name := some "web", image := some "y", expose := some true } ]

/-- A single worker-named declaration without expose/domain/port. -/
def c6WitArr : List ServiceDecl :=
  [{ service_name := some "worker", image := some "img" }]

/-- The loop state reached on `c6WitArr`. -/
def c6WitSt : ParseState :=
  match runParse {} c6WitArr with
  | .ok st => st
  | .error _ => {}

/-- A two-service array where only the second declaration overrides the
global `replicas` default. -/
def c3Arr : List ServiceDecl :=
  [ { service_name := some "a", image := some "ia" }
  , { service_name := some "b", image := some "ib", replicas := some 5 } ]

/-- The loop state reached on `c3Arr`. -/
def c3St : ParseState :=
  match runParse {} c3Arr with
  | .ok st => st
  | .error _ => {}

/-- Generator arguments whose custom environment holds a sensitive key
`KEY` and a second sensitive key `KEY_FILE` whose declared value equals
the secret path generated for `KEY`. -/
def c1CexArgs : ComposeArgs :=
  { services := ["api"]
    images := [("api", "img")]
    domains := ["api"]
    fqdn := "example.com"
    replicas := 1
    ports := ["80"]
    env := "prod"
    health_enabled := false
    health_urls := []
    service_envs := [("api", [("KEY", "x"), ("KEY_FILE", "/run/secrets/key")])]
    use_secrets := true }

/-- Generator arguments for the specification scenario
`DB_PASSWORD=abc` on a production service with secrets enabled. -/
def c1WitArgs : ComposeArgs :=
  { services := ["api"]
    images := [("api", "x:1")]
    domains := ["api"]
    fqdn := "example.com"
    replicas := 1
    ports := ["8080"]
    env := "prod"
    health_enabled := false
    health_urls := ["/health"]
    service_envs := [("api", [("DB_PASSWORD", "abc")])]
    use_secrets := true }

/-- Generator arguments with two services but only one declared health
URL, so the second service's index falls outside the list. -/
def c2CexArgs : ComposeArgs :=
  { services := ["a", "b"]
    images := [("a", "ia"), ("b", "ib")]
    domains := ["a", "b"]
    fqdn := "example.com"
    replicas := 1
    ports := ["80", "81"]
    env := "prod"
    health_enabled := true
    health_urls := ["/custom"]
    service_envs := [] }

/-- Generator arguments for the in-range health-URL case. -/
def c2WitArgs : ComposeArgs :=
  { services := ["api"]
    images := [("api", "img")]
    domains := ["api"]
    fqdn := "example.com"
    replicas := 1
    ports := ["8080"]
    env := "prod"
    health_enabled := true
    health_urls := [" /status "]
    service_envs := [] }

theorem strExt {a b : String} (h : a.data = b.data) : a = b := by
  cases a
  cases b
  exact congrArg String.mk h

theorem strAppend_assoc (a b c : String) : a ++ b ++ c = a ++ (b ++ c) :=
  strExt (by simp [String.data_append])

/-- Splitting an equality of `a ++ '=' :: b` shapes when neither left
part contains `'='`. -/
theorem eqCharSplit : ∀ (a : List Char) (b c d : List Char),
    ('=' : Char) ∉ a → ('=' : Char) ∉ c →
    a ++ '=' :: b = c ++ '=' :: d → a = c ∧ b = d := by
  intro a
  induction a with
  | nil =>
    intro b c d _ hc h
    cases c with
    | nil => simpa using h
    | cons x xs =>
      simp only [List.nil_append, List.cons_append, List.cons.injEq] at h
      exact absurd (h.1 ▸ List.mem_cons_self x xs) hc
  | cons y ys ih =>
    intro b c d ha hc h
    cases c with
    | nil =>
      simp only [List.nil_append, List.cons_append, List.cons.injEq] at h
      exact absurd (h.1 ▸ List.mem_cons_self y ys) ha
    | cons x xs =>
      simp only [List.cons_append, List.cons.injEq] at h
      obtain ⟨h1, h2⟩ := h
      have hr := ih b xs d (fun hm => ha (List.mem_cons_of_mem _ hm))
        (fun hm => hc (List.mem_cons_of_mem _ hm)) h2
      exact ⟨by rw [h1, hr.1], hr.2⟩

/-- String version of `eqCharSplit` for entries of the `KEY=VALUE` shape. -/
theorem strEqSplit (a b c d : String)
    (ha : ('=' : Char) ∉ a.data) (hc : ('=' : Char) ∉ c.data)
    (h : a ++ "=" ++ b = c ++ "=" ++ d) : a = c ∧ b = d := by
  have hd : a.data ++ '=' :: b.data = c.data ++ '=' :: d.data := by
    have h2 := congrArg String.data h
    simpa [String.data_append] using h2
  obtain ⟨h1, h2⟩ := eqCharSplit a.data b.data c.data d.data ha hc hd
  exact ⟨strExt h1, strExt h2⟩

theorem generateCompose_get? (g : ComposeArgs) (i : Nat) (svcRaw : String)
    (h : g.services.get? i = some svcRaw) :
    (generateCompose g).services.get? i = some (pyStrip svcRaw, buildEntry g i (pyStrip svcRaw)) := by
  show (g.services.enum.map (fun p => (pyStrip p.2, buildEntry g p.1 (pyStrip p.2)))).get? i = _
  rw [List.get?_map, List.get?_enum, h]
  rfl

theorem buildEntry_environment (g : ComposeArgs) (i : Nat) (svc : String) :
    (buildEntry g i svc).environment =
      ["SERVICE_NAME=" ++ svc, "ENVIRONMENT=" ++ g.env,
       "DOMAIN=" ++ pyStrOpt (resolveDomainPort g i
         (resolveExposure ((lookup? g.service_configs svc).getD {}).expose svc)).2.2]
        ++ envEntries g.use_secrets g.env ((lookup? g.service_envs svc).getD []) := rfl

theorem buildEntry_secrets (g : ComposeArgs) (i : Nat) (svc : String) :
    (buildEntry g i svc).secrets =
      envMounts g.use_secrets g.env svc ((lookup? g.service_envs svc).getD []) := rfl

theorem buildEntry_replicas (g : ComposeArgs) (i : Nat) (svc : String) :
    (buildEntry g i svc).replicas = g.replicas := rfl

theorem buildEntry_healthcheck (g : ComposeArgs) (i : Nat) (svc : String) :
    (buildEntry g i svc).healthcheck =
      healthcheckFor g i svc (resolveDomainPort g i
        (resolveExposure ((lookup? g.service_configs svc).getD {}).expose svc)).2.1
        ((lookup? g.service_configs svc).getD {}) := rfl

theorem regMemSecrets (g : ComposeArgs) (svcRaw : String) (hsvc : svcRaw ∈ g.services)
    (x : String)
    (hx : x ∈ envRegs g.use_secrets g.env (pyStrip svcRaw)
      ((lookup? g.service_envs (pyStrip svcRaw)).getD [])) :
    x ∈ (generateCompose g).secrets := by
  refine List.mem_flatten.2 ⟨_, List.mem_map_of_mem
    (fun s => envRegs g.use_secrets g.env (pyStrip s) ((lookup? g.service_envs (pyStrip s)).getD []))
    hsvc, hx⟩

/-- C4: the resolved exposure of a service (lines 371-374) is the
explicit `expose` value when one is present; otherwise it defaults to
`false` exactly when the name contains `worker` or `job`
(case-insensitively) and to `true` otherwise. -/
theorem c4_exposure_resolution (svc : String) :
    (∀ b : Bool, resolveExposure (some b) svc = b) ∧
    resolveExposure none svc =
      !(strHasSub (pyLower svc) "worker" || strHasSub (pyLower svc) "job") := by
  constructor
  · intro b
    simp [resolveExposure]
  · unfold resolveExposure
    cases hw : strHasSub (pyLower svc) "worker" <;>
      cases hj : strHasSub (pyLower svc) "job" <;> simp [hw, hj]

/-- C5: the routing host is `{domain}.{fqdn}` in production and
`{domain}-{env}.{fqdn}` otherwise (lines 383-385), and the round-trip
input `[{service_name:"api", image:"x:1", port:8080, domain:"api"}]`
with the default `prod`/`example.com` globals compiles to a service
`api` whose labels carry the host rule for `api.example.com`, TLS, and
`loadbalancer.server.port=8080`. -/
theorem c5_routing_host_and_labels :
    (∀ domain env fqdn : String, fqdnFull domain env fqdn =
      if env = "prod" then domain ++ "." ++ fqdn
      else domain ++ "-" ++ env ++ "." ++ fqdn) ∧
    (svcEntry? (composeFromArray c5Arr) "api").map ServiceEntry.labels = some c5Labels ∧
    "traefik.http.routers.api.rule=Host(`api.example.com`)" ∈ c5Labels ∧
    "traefik.http.routers.api.tls=true" ∈ c5Labels ∧
    "traefik.http.services.api.loadbalancer.server.port=8080" ∈ c5Labels := by
  refine ⟨?_, by decide, by decide, by decide, by decide⟩
  intro d e f
  unfold fqdnFull
  rfl

/-- C9: in the array input `c9Arr` the worker-named first service
contributes no domain/port entry, so the exposed second service `api`
(declared with domain `api` and port `8080`) sits at index 1 while the
collected positional lists have length 1; the compiled `api` entry
therefore has no routing labels and the environment entry
`DOMAIN=None`, because domains and ports are paired with services by
list position, not by name. -/
theorem c9_positional_pairing :
    parsedDomains (parseArrayConfig c9Arr) = ["api"] ∧
    parsedPorts (parseArrayConfig c9Arr) = ["8080"] ∧
    resolveExposure none "api" = true ∧
    (svcEntry? (composeFromArray c9Arr) "api").map ServiceEntry.labels = some [] ∧
    (svcEntry? (composeFromArray c9Arr) "api").map ServiceEntry.environment =
      some ["SERVICE_NAME=api", "ENVIRONMENT=prod", "DOMAIN=None"] := by
  decide

/-- C7 counterexample: the blue-green update block does not carry an
unbounded parallelism; `generate_update_config` emits the fixed bound
`999`, which is below a replica count of 1000. -/
theorem c7_bluegreen_parallelism_bounded :
    (generateUpdateConfig "api" "prod" "blue-green").parallelism = 999 ∧
    ¬ 1000 ≤ (generateUpdateConfig "api" "prod" "blue-green").parallelism := by
  decide

/-- C7 (amended): for every service name and every environment, the
update block is exactly determined by `(strategy, env)` — the service
name is irrelevant — with rows: rolling in prod
`(1, 30s, rollback, 5m, 0.1, stop-first)`; rolling outside prod
`(2, 10s, rollback, 30s, 0.3, stop-first)`; blue-green, in every
environment, `(999, 0s, rollback, 5m, 0.0, start-first)` where `999` is
the fixed constant the source comments as "all at once"; canary, in
every environment, `(1, 5m, pause, 10m, 0.1, start-first)`. -/
theorem c7_update_config_table (name env : String) :
    generateUpdateConfig name "prod" "rolling" =
      { parallelism := 1, delay := "30s", failure_action := "rollback",
        monitor := "5m", maxFailureRatioQ := 1/10, order := "stop-first" } ∧
    (env ≠ "prod" → generateUpdateConfig name env "rolling" =
      { parallelism := 2, delay := "10s", failure_action := "rollback",
        monitor := "30s", maxFailureRatioQ := 3/10, order := "stop-first" }) ∧
    generateUpdateConfig name env "blue-green" =
      { parallelism := 999, delay := "0s", failure_action := "rollback",
        monitor := "5m", maxFailureRatioQ := 0, order := "start-first" } ∧
    generateUpdateConfig name env "canary" =
      { parallelism := 1, delay := "5m", failure_action := "pause",
        monitor := "10m", maxFailureRatioQ := 1/10, order := "start-first" } := by
  refine ⟨rfl, fun hnp => ?_, rfl, rfl⟩
  simp [generateUpdateConfig, hnp]

/-- C7 witness: the table instantiated at service `api`, in the `dev`
and the `prod` environments. -/
theorem c7_update_config_table_wit :
    (generateUpdateConfig "api" "prod" "rolling" =
      { parallelism := 1, delay := "30s", failure_action := "rollback",
        monitor := "5m", maxFailureRatioQ := 1/10, order := "stop-first" } ∧
    generateUpdateConfig "api" "dev" "rolling" =
      { parallelism := 2, delay := "10s", failure_action := "rollback",
        monitor := "30s", maxFailureRatioQ := 3/10, order := "stop-first" } ∧
    generateUpdateConfig "api" "dev" "blue-green" =
      { parallelism := 999, delay := "0s", failure_action := "rollback",
        monitor := "5m", maxFailureRatioQ := 0, order := "start-first" } ∧
    generateUpdateConfig "api" "dev" "canary" =
      { parallelism := 1, delay := "5m", failure_action := "pause",
        monitor := "10m", maxFailureRatioQ := 1/10, order := "start-first" }) ∧
    generateUpdateConfig "api" "prod" "blue-green" =
      { parallelism := 999, delay := "0s", failure_action := "rollback",
        monitor := "5m", maxFailureRatioQ := 0, order := "start-first" } ∧
    generateUpdateConfig "api" "prod" "canary" =
      { parallelism := 1, delay := "5m", failure_action := "pause",
        monitor := "10m", maxFailureRatioQ := 1/10, order := "start-first" } := by
  have hd := c7_update_config_table "api" "dev"
  have hp := c7_update_config_table "api" "prod"
  exact ⟨⟨hd.1, hd.2.1 (by decide), hd.2.2.1, hd.2.2.2⟩, hp.2.2.1, hp.2.2.2⟩

/-- C10: every deployment-strategy string other than `rolling` and
`blue-green` falls into the final `else` of `generate_update_config`
and yields exactly the canary parameter set; the function is total, so
no error is raised for an unrecognized strategy. -/
theorem c10_unknown_strategy_canary (name env strategy : String)
    (h1 : strategy ≠ "rolling") (h2 : strategy ≠ "blue-green") :
    generateUpdateConfig name env strategy =
      { parallelism := 1, delay := "5m", failure_action := "pause",
        monitor := "10m", maxFailureRatioQ := 1/10, order := "start-first" } := by
  unfold generateUpdateConfig
  rw [if_neg h1, if_neg h2]

/-- C10 witness: the misspelled strategy `rollingg` gets the canary
parameter set. -/
theorem c10_unknown_strategy_canary_wit :
    generateUpdateConfig "api" "prod" "rollingg" =
      { parallelism := 1, delay := "5m", failure_action := "pause",
        monitor := "10m", maxFailureRatioQ := 1/10, order := "start-first" } :=
  c10_unknown_strategy_canary "api" "prod" "rollingg" (by decide) (by decide)

/-- C6 counterexample: in `c6CexArr` the explicitly exposed service
`web` has neither domain nor port collected (the positional lists hold
only `api`'s entries), yet no `app` fallback is synthesized, because
lines 143-146 look only at whether the collected list is empty. -/
theorem c6_no_fallback_for_exposed_without_domain :
    parsedDomains (parseArrayConfig c6CexArr) = ["api"] ∧
    "app" ∉ parsedDomains (parseArrayConfig c6CexArr) ∧
    resolveExposure (some true) "web" = true ∧
    c6CexArr.length = 2 := by
  decide

/-- C6 (amended): the fallback domain `app` (resp. port `8080`) is a
single positional element synthesized exactly when the collected list
is empty and the guard of lines 143-146 holds; that guard asks only
whether some service's explicit `expose` entry is not `False`
(defaulting to true) and ignores the worker/job name heuristic, so a
nonempty collected list is always returned unchanged. -/
theorem c6_fallback_synthesis (arr : List ServiceDecl) (st : ParseState)
    (h : runParse {} arr = .ok st) :
    parseArrayConfig arr = .ok (finalize st) ∧
    (finalize st).domains =
      (if st.domains.isEmpty && exposeGuard st then ["app"] else st.domains) ∧
    (finalize st).ports =
      (if st.ports.isEmpty && exposeGuard st then ["8080"] else st.ports) ∧
    (st.domains ≠ [] → (finalize st).domains = st.domains) ∧
    (st.ports ≠ [] → (finalize st).ports = st.ports) := by
  refine ⟨?_, rfl, rfl, ?_, ?_⟩
  · unfold parseArrayConfig
    rw [h]
  · intro hne
    have he : st.domains.isEmpty = false := by
      cases hd : st.domains with
      | nil => exact absurd hd hne
      | cons a t => rfl
    show (if st.domains.isEmpty && exposeGuard st then ["app"] else st.domains) = st.domains
    rw [he]
    rfl
  · intro hne
    have he : st.ports.isEmpty = false := by
      cases hd : st.ports with
      | nil => exact absurd hd hne
      | cons a t => rfl
    show (if st.ports.isEmpty && exposeGuard st then ["8080"] else st.ports) = st.ports
    rw [he]
    rfl

/-- C6 witness: on the single unexposed worker declaration the guard
still holds and the empty collected lists become `["app"]`/`["8080"]`. -/
theorem c6_fallback_synthesis_wit :
    parseArrayConfig c6WitArr = .ok (finalize c6WitSt) ∧
    (finalize c6WitSt).domains = ["app"] ∧
    (finalize c6WitSt).ports = ["8080"] := by
  have h := c6_fallback_synthesis c6WitArr c6WitSt rfl
  refine ⟨h.1, ?_, ?_⟩
  · rw [h.2.1]
    decide
  · rw [h.2.2.1]
    decide

theorem runParse_first_bad (pre : List ServiceDecl) :
    ∀ (st : ParseState) (bad : ServiceDecl) (rest : List ServiceDecl),
    (∀ svc ∈ pre, svc.service_name ≠ none ∧ svc.image ≠ none) →
    (bad.service_name = none ∨ bad.image = none) →
    ∃ m, runParse st (pre ++ bad :: rest) = .error m ∧
      (bad.service_name = none → m = "Each service must have a 'service_name' field") ∧
      (∀ nm, bad.service_name = some nm →
        m = "Service '" ++ nm ++ "' must have an 'image' field") := by
  induction pre with
  | nil =>
    intro st bad rest _ hbad
    cases hn : bad.service_name with
    | none =>
      refine ⟨"Each service must have a 'service_name' field", ?_, fun _ => rfl, ?_⟩
      · simp [runParse, processSvc, hn]
      · intro nm hnm
        exact Option.noConfusion hnm
    | some nm =>
      have hi : bad.image = none := by
        rcases hbad with h | h
        · rw [hn] at h
          cases h
        · exact h
      refine ⟨"Service '" ++ nm ++ "' must have an 'image' field", ?_, ?_, ?_⟩
      · simp [runParse, processSvc, hn, hi]
      · intro h
        exact Option.noConfusion h
      · intro nm2 hnm2
        injection hnm2 with e
        rw [e]
  | cons a t ih =>
    intro st bad rest hpre hbad
    obtain ⟨hn, hi⟩ := hpre a (List.mem_cons_self a t)
    cases hna : a.service_name with
    | none => exact absurd hna hn
    | some na =>
      cases hia : a.image with
      | none => exact absurd hia hi
      | some ia =>
        cases hp : processSvc st a with
        | error e =>
          exfalso
          simp [processSvc, hna, hia] at hp
        | ok st2 =>
          obtain ⟨m, hm, h1, h2⟩ := ih st2 bad rest
            (fun svc hs => hpre svc (List.mem_cons_of_mem a hs)) hbad
          refine ⟨m, ?_, h1, h2⟩
          rw [List.cons_append]
          simp [runParse, hp, hm]

/-- C8 (amended): when the declarations before the first offending one
are all well-formed, normalization aborts with a `ValueError` at the
offending declaration and no configuration is produced; if that
declaration has a name but lacks `image`, the message names exactly
that service (`Service '<its name>' must have an 'image' field`),
while a missing `service_name` yields the fixed generic string naming
neither the service nor its index. -/
theorem c8_missing_fields_error (pre : List ServiceDecl) (bad : ServiceDecl)
    (rest : List ServiceDecl)
    (hpre : ∀ svc ∈ pre, svc.service_name ≠ none ∧ svc.image ≠ none)
    (hbad : bad.service_name = none ∨ bad.image = none) :
    ∃ m, parseArrayConfig (pre ++ bad :: rest) = .error m ∧
      (bad.service_name = none → m = "Each service must have a 'service_name' field") ∧
      (∀ nm, bad.service_name = some nm →
        m = "Service '" ++ nm ++ "' must have an 'image' field") := by
  obtain ⟨m, hm, h1, h2⟩ := runParse_first_bad pre {} bad rest hpre hbad
  refine ⟨m, ?_, h1, h2⟩
  unfold parseArrayConfig
  rw [hm]

/-- C8 counterexample: declarations missing `service_name` at index 0
and at index 1 produce the identical fixed message, which contains
neither a service name nor an index digit — so the error does not name
the offending service or its index. -/
theorem c8_generic_name_error_message :
    errOf (parseArrayConfig [{ image := some "x" }]) =
      some "Each service must have a 'service_name' field" ∧
    errOf (parseArrayConfig
      [{ service_name := some "s1", image := some "x" }, { image := some "y" }]) =
      some "Each service must have a 'service_name' field" ∧
    strHasSub "Each service must have a 'service_name' field" "s1" = false ∧
    strHasSub "Each service must have a 'service_name' field" "0" = false ∧
    strHasSub "Each service must have a 'service_name' field" "1" = false := by
  decide

/-- C8 witness: a declaration named `db` lacking `image` (preceded by a
well-formed declaration) fails with the message naming `db`, and a
declaration with an image but no name fails with the generic string. -/
theorem c8_missing_fields_error_wit :
    errOf (parseArrayConfig [{ service_name := some "s1", image := some "x" },
      { service_name := some "db", port := some 5432 }]) =
      some "Service 'db' must have an 'image' field" ∧
    errOf (parseArrayConfig [{ image := some "img" }]) =
      some "Each service must have a 'service_name' field" := by
  constructor
  · obtain ⟨m, hm, _, h2⟩ := c8_missing_fields_error
      [{ service_name := some "s1", image := some "x" }]
      { service_name := some "db", port := some 5432 } [] (by decide) (Or.inr rfl)
    rw [h2 "db" rfl] at hm
    simp only [errOf, hm]
    decide
  · obtain ⟨m, hm, h1, _⟩ := c8_missing_fields_error []
      { image := some "img" } [] (by decide) (Or.inl rfl)
    rw [h1 rfl] at hm
    simp only [errOf, hm]
    decide

theorem processSvc_ok_global (st : ParseState) (svc : ServiceDecl) (st2 : ParseState)
    (h : processSvc st svc = .ok st2) :
    st2.global_config = updateGlobals st.global_config svc := by
  cases hn : svc.service_name with
  | none => simp [processSvc, hn] at h
  | some name =>
    cases hi : svc.image with
    | none => simp [processSvc, hn, hi] at h
    | some img =>
      simp [processSvc, hn, hi] at h
      subst h
      rfl

theorem runParse_global (arr : List ServiceDecl) : ∀ st0 st : ParseState,
    runParse st0 arr = .ok st →
    st.global_config = arr.foldl updateGlobals st0.global_config := by
  induction arr with
  | nil =>
    intro st0 st h
    simp [runParse] at h
    subst h
    rfl
  | cons a t ih =>
    intro st0 st h
    cases hp : processSvc st0 a with
    | error e => simp [runParse, hp] at h
    | ok st1 =>
      have h2 : runParse st1 t = .ok st := by simpa [runParse, hp] using h
      rw [List.foldl_cons, ← processSvc_ok_global st0 a st1 hp]
      exact ih st1 st h2

theorem foldl_updateGlobals (arr : List ServiceDecl) : ∀ g0 : GlobalConfig,
    arr.foldl updateGlobals g0 =
      { replicas := arr.foldl (fun a s => s.replicas.getD a) g0.replicas
        env := arr.foldl (fun a s => s.env.getD a) g0.env
        fqdn := arr.foldl (fun a s => s.fqdn.getD a) g0.fqdn
        health_checks := arr.foldl (fun a s => s.health_checks.getD a) g0.health_checks
        resource_limits := arr.foldl (fun a s => s.resource_limits.getD a) g0.resource_limits
        volume_persistence :=
          arr.foldl (fun a s => s.volume_persistence.getD a) g0.volume_persistence
        volume_dir := arr.foldl (fun a s => s.volume_dir.getD a) g0.volume_dir
        enable_retry := arr.foldl (fun a s => s.enable_retry.getD a) g0.enable_retry
        enable_rate_limit :=
          arr.foldl (fun a s => s.enable_rate_limit.getD a) g0.enable_rate_limit
        enable_monitoring :=
          arr.foldl (fun a s => s.enable_monitoring.getD a) g0.enable_monitoring
        enable_network_separation :=
          arr.foldl (fun a s => s.enable_network_separation.getD a) g0.enable_network_separation
        deployment_strategy :=
          arr.foldl (fun a s => s.deployment_strategy.getD a) g0.deployment_strategy
        use_secrets := arr.foldl (fun a s => s.use_secrets.getD a) g0.use_secrets
        enable_logging := arr.foldl (fun a s => s.enable_logging.getD a) g0.enable_logging } := by
  induction arr with
  | nil => intro g0; rfl
  | cons a t ih =>
    intro g0
    simp only [List.foldl_cons]
    rw [ih]
    rfl

theorem generateCompose_entry_uniform (g : ComposeArgs) (p : String × ServiceEntry)
    (hp : p ∈ (generateCompose g).services) :
    p.2.replicas = g.replicas ∧
    p.2.update_config = generateUpdateConfig p.1 g.env g.deployment_strategy ∧
    "ENVIRONMENT=" ++ g.env ∈ p.2.environment ∧
    (p.2.healthcheck).isSome = g.health_enabled := by
  obtain ⟨q, hqm, hq⟩ := List.mem_map.1 hp
  subst hq
  refine ⟨rfl, rfl, ?_, ?_⟩
  · show "ENVIRONMENT=" ++ g.env ∈ (buildEntry g q.1 (pyStrip q.2)).environment
    rw [buildEntry_environment]
    exact List.mem_append_left _ (List.mem_cons_of_mem _ (List.mem_cons_self _ _))
  · show ((buildEntry g q.1 (pyStrip q.2)).healthcheck).isSome = g.health_enabled
    rw [buildEntry_healthcheck]
    unfold healthcheckFor
    cases hh : g.health_enabled <;> simp [hh]

/-- C3 (amended): a global-default field set on a declaration does not
leave earlier declarations on the earlier default; the loop folds every
global key (replicas, env, fqdn, all feature toggles,
deployment_strategy, volume_dir, use_secrets, enable_logging) into one
shared value, field by field and last writer wins, and that single
final record is applied uniformly to every compiled service entry,
including the ones processed before the override — shown on each entry
for the replica count, the environment/strategy-determined update
block, the `ENVIRONMENT` variable and the health-check toggle. -/
theorem c3_global_last_writer (arr : List ServiceDecl) (st : ParseState)
    (cfg : ParsedConfig) (c : Compose)
    (hrun : runParse {} arr = .ok st)
    (hcfg : parseArrayConfig arr = .ok cfg)
    (hcomp : composeFromArray arr = .ok c) :
    st.global_config = arr.foldl updateGlobals {} ∧
    arr.foldl updateGlobals {} =
      { replicas := arr.foldl (fun a s => s.replicas.getD a) 1
        env := arr.foldl (fun a s => s.env.getD a) "prod"
        fqdn := arr.foldl (fun a s => s.fqdn.getD a) "example.com"
        health_checks := arr.foldl (fun a s => s.health_checks.getD a) true
        resource_limits := arr.foldl (fun a s => s.resource_limits.getD a) true
        volume_persistence := arr.foldl (fun a s => s.volume_persistence.getD a) false
        volume_dir := arr.foldl (fun a s => s.volume_dir.getD a) "/data"
        enable_retry := arr.foldl (fun a s => s.enable_retry.getD a) false
        enable_rate_limit := arr.foldl (fun a s => s.enable_rate_limit.getD a) false
        enable_monitoring := arr.foldl (fun a s => s.enable_monitoring.getD a) false
        enable_network_separation :=
          arr.foldl (fun a s => s.enable_network_separation.getD a) false
        deployment_strategy := arr.foldl (fun a s => s.deployment_strategy.getD a) "rolling"
        use_secrets := arr.foldl (fun a s => s.use_secrets.getD a) false
        enable_logging := arr.foldl (fun a s => s.enable_logging.getD a) true } ∧
    cfg.global_config = st.global_config ∧
    (∀ p ∈ c.services,
      p.2.replicas = cfg.global_config.replicas ∧
      p.2.update_config = generateUpdateConfig p.1 cfg.global_config.env
        cfg.global_config.deployment_strategy ∧
      "ENVIRONMENT=" ++ cfg.global_config.env ∈ p.2.environment ∧
      (p.2.healthcheck).isSome = cfg.global_config.health_checks) := by
  have hcfg2 : cfg = finalize st := by
    unfold parseArrayConfig at hcfg
    rw [hrun] at hcfg
    exact Except.ok.inj hcfg.symm
  refine ⟨runParse_global arr {} st hrun, foldl_updateGlobals arr {}, by rw [hcfg2]; rfl, ?_⟩
  intro p hp
  unfold composeFromArray at hcomp
  rw [hcfg] at hcomp
  have hc : c = generateCompose
      { services := cfg.services
        images := cfg.images
        domains := cfg.domains
        fqdn := cfg.global_config.fqdn
        replicas := cfg.global_config.replicas
        ports := cfg.ports
        env := cfg.global_config.env
        health_enabled := cfg.global_config.health_checks
        health_urls := cfg.health_urls
        service_envs := cfg.service_envs
        enable_retry := cfg.global_config.enable_retry
        enable_rate_limit := cfg.global_config.enable_rate_limit
        enable_monitoring := cfg.global_config.enable_monitoring
        deployment_strategy := cfg.global_config.deployment_strategy
        use_secrets := cfg.global_config.use_secrets
        advanced_health := cfg.advanced_health
        enable_network_separation := cfg.global_config.enable_network_separation
        retry_config := cfg.retry_config
        rate_limit_config := cfg.rate_limit_config
        metrics_paths := cfg.metrics_paths
        service_configs := cfg.service_configs } :=
    Except.ok.inj hcomp.symm
  subst hc
  have h4 := generateCompose_entry_uniform _ p hp
  exact ⟨h4.1, h4.2.1, h4.2.2.1, h4.2.2.2⟩

/-- C3 counterexample: in `c3Arr` only the second declaration sets
`replicas := 5`, yet the first service (processed before the override)
is compiled with 5 replicas, not with the earlier default 1. -/
theorem c3_earlier_service_gets_later_override :
    replicasAt (composeFromArray c3Arr) 0 = some 5 ∧ (5 : Nat) ≠ 1 := by
  decide

/-- C3 witness: on `c3Arr` the folded global record keeps the defaults
for the fields no declaration sets (`env`, `deployment_strategy`),
carries 5 for `replicas`, and the first compiled entry gets that
replica count. -/
theorem c3_global_last_writer_wit :
    c3St.global_config.replicas = 5 ∧
    c3St.global_config.env = "prod" ∧
    c3St.global_config.deployment_strategy = "rolling" ∧
    replicasAt (composeFromArray c3Arr) 0 = some 5 := by
  have h := c3_global_last_writer c3Arr c3St (finalize c3St)
    (generateCompose
      { services := (finalize c3St).services
        images := (finalize c3St).images
        domains := (finalize c3St).domains
        fqdn := (finalize c3St).global_config.fqdn
        replicas := (finalize c3St).global_config.replicas
        ports := (finalize c3St).ports
        env := (finalize c3St).global_config.env
        health_enabled := (finalize c3St).global_config.health_checks
        health_urls := (finalize c3St).health_urls
        service_envs := (finalize c3St).service_envs
        enable_retry := (finalize c3St).global_config.enable_retry
        enable_rate_limit := (finalize c3St).global_config.enable_rate_limit
        enable_monitoring := (finalize c3St).global_config.enable_monitoring
        deployment_strategy := (finalize c3St).global_config.deployment_strategy
        use_secrets := (finalize c3St).global_config.use_secrets
        advanced_health := (finalize c3St).advanced_health
        enable_network_separation := (finalize c3St).global_config.enable_network_separation
        retry_config := (finalize c3St).retry_config
        rate_limit_config := (finalize c3St).rate_limit_config
        metrics_paths := (finalize c3St).metrics_paths
        service_configs := (finalize c3St).service_configs }) rfl rfl rfl
  exact ⟨by rw [h.1]; decide, by rw [h.1]; decide, by rw [h.1]; decide, by decide⟩

/-- C2 counterexample: with two services and one declared health URL
`/custom`, the claim's cycling rule (`index mod list length`, here
`1 % 1 = 0`) predicts `/custom` for the second service, but lines
559-561 fall back to `/health` whenever the index reaches past the
list: the modulo indexing sits inside the `i < len` guard and never
wraps. -/
theorem c2_no_cycling :
    hcAt (generateCompose c2CexArgs) 1 =
      some (some { test := ["CMD", "curl", "-f", "http://localhost:81/health"]
                   interval := "30s"
                   timeout := "10s"
                   retries := 5
                   start_period := "60s" }) ∧
    c2CexArgs.health_urls = ["/custom"] ∧
    1 % c2CexArgs.health_urls.length = 0 ∧
    c2CexArgs.health_urls.getD 0 "" = "/custom" ∧
    ("http://localhost:81/health" : String) ≠ "http://localhost:81/custom" := by
  decide

/-- C2 (amended): when health checks are enabled and the service has no
`advanced_health` override, the default check probes
`http://localhost:{port}{health_url}` with interval 30s, timeout 10s,
5 retries and a 60s start period, where `health_url` is the stripped
entry at `i % len` for `i < len` (so simply entry `i`), and the default
`/health` — not a cycled entry — once the service index reaches past
the declared list. -/
theorem c2_default_healthcheck (g : ComposeArgs) (i : Nat) (svcRaw : String)
    (hen : g.health_enabled = true)
    (hsvc : g.services.get? i = some svcRaw)
    (hadv : lookup? g.advanced_health (pyStrip svcRaw) = none)
    (hexp : resolveExposure ((lookup? g.service_configs (pyStrip svcRaw)).getD {}).expose
      (pyStrip svcRaw) = true)
    (hd : i < g.domains.length) (hp : i < g.ports.length)
    (hpne : (g.ports.getD i "").isEmpty = false) :
    (generateCompose g).services.get? i =
      some (pyStrip svcRaw, buildEntry g i (pyStrip svcRaw)) ∧
    (buildEntry g i (pyStrip svcRaw)).healthcheck = some
      { test := ["CMD", "curl", "-f", "http://localhost:" ++ g.ports.getD i "" ++
          (if i < g.health_urls.length then
            pyStrip (g.health_urls.getD (i % g.health_urls.length) "")
          else "/health")]
        interval := "30s"
        timeout := "10s"
        retries := 5
        start_period := "60s" } := by
  refine ⟨generateCompose_get? g i svcRaw hsvc, ?_⟩
  rw [buildEntry_healthcheck]
  have hport : (resolveDomainPort g i (resolveExposure
      ((lookup? g.service_configs (pyStrip svcRaw)).getD {}).expose (pyStrip svcRaw))).2.1
      = some (g.ports.getD i "") := by
    unfold resolveDomainPort
    rw [hexp]
    rw [if_pos ⟨rfl, hd, hp⟩]
  rw [hport]
  unfold healthcheckFor
  rw [hen]
  simp [List.getD] at hpne
  simp [generateHealthcheck, hadv, pyOr, hpne]

/-- C2 witness: one service, health URL list `[" /status "]`, port
`8080`: the compiled check probes the stripped in-range entry. -/
theorem c2_default_healthcheck_wit :
    (generateCompose c2WitArgs).services.get? 0 =
      some (pyStrip "api", buildEntry c2WitArgs 0 (pyStrip "api")) ∧
    (buildEntry c2WitArgs 0 (pyStrip "api")).healthcheck = some
      { test := ["CMD", "curl", "-f", "http://localhost:" ++ c2WitArgs.ports.getD 0 "" ++
          (if 0 < c2WitArgs.health_urls.length then
            pyStrip (c2WitArgs.health_urls.getD (0 % c2WitArgs.health_urls.length) "")
          else "/health")]
        interval := "30s"
        timeout := "10s"
        retries := 5
        start_period := "60s" } :=
  c2_default_healthcheck c2WitArgs 0 "api" rfl rfl rfl (by decide) (by decide) (by decide)
    (by decide)

theorem noEqNameBase (key value svc env2 dom : String)
    (hk : ('=' : Char) ∉ key.data) (hs : sensitiveKey key = true) :
    key ++ "=" ++ value ∉
      (["SERVICE_NAME=" ++ svc, "ENVIRONMENT=" ++ env2, "DOMAIN=" ++ dom] : List String) := by
  intro hmem
  simp only [List.mem_cons, List.not_mem_nil, or_false] at hmem
  rcases hmem with h | h | h
  · have e1 : ("SERVICE_NAME=" ++ svc : String) = "SERVICE_NAME" ++ "=" ++ svc := by
      have e0 : ("SERVICE_NAME=" : String) = "SERVICE_NAME" ++ "=" := by decide
      rw [e0]
    have hkey := (strEqSplit key value "SERVICE_NAME" svc hk (by decide) (h.trans e1)).1
    rw [hkey] at hs
    exact absurd hs (by decide)
  · have e1 : ("ENVIRONMENT=" ++ env2 : String) = "ENVIRONMENT" ++ "=" ++ env2 := by
      have e0 : ("ENVIRONMENT=" : String) = "ENVIRONMENT" ++ "=" := by decide
      rw [e0]
    have hkey := (strEqSplit key value "ENVIRONMENT" env2 hk (by decide) (h.trans e1)).1
    rw [hkey] at hs
    exact absurd hs (by decide)
  · have e1 : ("DOMAIN=" ++ dom : String) = "DOMAIN" ++ "=" ++ dom := by
      have e0 : ("DOMAIN=" : String) = "DOMAIN" ++ "=" := by decide
      rw [e0]
    have hkey := (strEqSplit key value "DOMAIN" dom hk (by decide) (h.trans e1)).1
    rw [hkey] at hs
    exact absurd hs (by decide)

theorem notInEnvEntries (u : Bool) (env2 : String) (custom : List (String × String))
    (key value : String)
    (hu : u = true) (he : env2 = "prod") (hk : sensitiveKey key = true)
    (hkfree : ('=' : Char) ∉ key.data)
    (hfree : ∀ kv ∈ custom, ('=' : Char) ∉ kv.1.data)
    (hnocoll : ∀ kv ∈ custom, sensitiveKey kv.1 = true → key = kv.1 ++ "_FILE" →
      value ≠ "/run/secrets/" ++ pyLower kv.1) :
    key ++ "=" ++ value ∉ envEntries u env2 custom := by
  intro hmem
  obtain ⟨kv, hkv, heq⟩ := List.mem_map.1 hmem
  have heq2 : (if secretCond u env2 kv.1 = true then
      kv.1 ++ "_FILE=/run/secrets/" ++ pyLower kv.1
    else kv.1 ++ "=" ++ kv.2) = key ++ "=" ++ value := heq
  cases hc : secretCond u env2 kv.1 with
  | true =>
    rw [if_pos hc] at heq2
    have e2 : kv.1 ++ "_FILE=/run/secrets/" ++ pyLower kv.1
        = (kv.1 ++ "_FILE") ++ "=" ++ ("/run/secrets/" ++ pyLower kv.1) := by
      have e0 : ("_FILE=/run/secrets/" : String) = "_FILE" ++ "=" ++ "/run/secrets/" := by
        decide
      rw [e0]
      simp only [strAppend_assoc]
    have hfL : ('=' : Char) ∉ (kv.1 ++ "_FILE").data := by
      rw [String.data_append]
      intro hx
      rcases List.mem_append.1 hx with hx | hx
      · exact hfree kv hkv hx
      · exact absurd hx (by decide)
    have hsp := strEqSplit (kv.1 ++ "_FILE") ("/run/secrets/" ++ pyLower kv.1) key value
      hfL hkfree (e2.symm.trans heq2)
    have hsens : sensitiveKey kv.1 = true := by
      have hc2 := hc
      unfold secretCond at hc2
      simp only [Bool.and_eq_true] at hc2
      exact hc2.2
    exact hnocoll kv hkv hsens hsp.1.symm hsp.2.symm
  | false =>
    rw [if_neg (by simp [hc])] at heq2
    have hsp := strEqSplit kv.1 kv.2 key value (hfree kv hkv) hkfree heq2
    rw [hsp.1, hu, he] at hc
    unfold secretCond at hc
    simp [hk] at hc

/-- C1 (amended): for a custom environment entry `(key, value)` whose
key is an environment-variable name (no `=` in any key) and which
satisfies the guard of line 519 (secrets on, production, sensitive
key), the compiled entry registers the external secret
`{service}_{lowercased key}`, mounts it at
`/run/secrets/{lowercased key}` with mode `0o400`, appends the
`{KEY}_FILE` pointer, and the plaintext `KEY=VALUE` string is absent
from the service's environment — unless (the amendment) the entry's
value textually coincides with the `_FILE` pointer generated for a
second sensitive key `k` with `key = k ++ "_FILE"`, which the guard of
the claim's wording does not exclude; entries failing the guard are
appended in plaintext. -/
theorem c1_sensitive_env_secrets (g : ComposeArgs) (i : Nat) (svcRaw key value : String)
    (hsvc : g.services.get? i = some svcRaw)
    (hmem : (key, value) ∈ (lookup? g.service_envs (pyStrip svcRaw)).getD [])
    (hcond : secretCond g.use_secrets g.env key = true)
    (hfree : ∀ kv ∈ (lookup? g.service_envs (pyStrip svcRaw)).getD [],
      ('=' : Char) ∉ kv.1.data)
    (hnocoll : ∀ kv ∈ (lookup? g.service_envs (pyStrip svcRaw)).getD [],
      sensitiveKey kv.1 = true → key = kv.1 ++ "_FILE" →
      value ≠ "/run/secrets/" ++ pyLower kv.1) :
    (generateCompose g).services.get? i =
      some (pyStrip svcRaw, buildEntry g i (pyStrip svcRaw)) ∧
    key ++ "=" ++ value ∉ (buildEntry g i (pyStrip svcRaw)).environment ∧
    key ++ "_FILE=/run/secrets/" ++ pyLower key ∈
      (buildEntry g i (pyStrip svcRaw)).environment ∧
    ({ source := pyStrip svcRaw ++ "_" ++ pyLower key
       target := "/run/secrets/" ++ pyLower key
       mode := 0o400 } : SecretMount) ∈ (buildEntry g i (pyStrip svcRaw)).secrets ∧
    pyStrip svcRaw ++ "_" ++ pyLower key ∈ (generateCompose g).secrets ∧
    (∀ k v, (k, v) ∈ (lookup? g.service_envs (pyStrip svcRaw)).getD [] →
      secretCond g.use_secrets g.env k = false →
      k ++ "=" ++ v ∈ (buildEntry g i (pyStrip svcRaw)).environment) := by
  have hcond2 := hcond
  unfold secretCond at hcond2
  simp only [Bool.and_eq_true, beq_iff_eq] at hcond2
  obtain ⟨⟨hu, he⟩, hks⟩ := hcond2
  refine ⟨generateCompose_get? g i svcRaw hsvc, ?_, ?_, ?_, ?_, ?_⟩
  · rw [buildEntry_environment]
    intro hin
    rcases List.mem_append.1 hin with hb | henv
    · exact noEqNameBase key value _ _ _ (hfree _ hmem) hks hb
    · exact notInEnvEntries g.use_secrets g.env _ key value hu he hks (hfree _ hmem)
        hfree hnocoll henv
  · rw [buildEntry_environment]
    refine List.mem_append.2 (Or.inr ?_)
    refine List.mem_map.2 ⟨(key, value), hmem, ?_⟩
    simp [hcond]
  · rw [buildEntry_secrets]
    refine List.mem_filterMap.2 ⟨(key, value), hmem, ?_⟩
    simp [hcond]
  · refine regMemSecrets g svcRaw (List.get?_mem hsvc) _ ?_
    refine List.mem_filterMap.2 ⟨(key, value), hmem, ?_⟩
    simp [hcond]
  · intro k v hkv hkc
    rw [buildEntry_environment]
    refine List.mem_append.2 (Or.inr ?_)
    refine List.mem_map.2 ⟨(k, v), hkv, ?_⟩
    simp [hkc]

/-- C1 counterexample: with secrets enabled in production and the custom
environment `{KEY: "x", KEY_FILE: "/run/secrets/key"}`, the entry
`(KEY_FILE, /run/secrets/key)` is sensitive and satisfies every guard
of the claim, yet the compiled environment does contain the plaintext
string `KEY_FILE=/run/secrets/key` for that key — it is the `_FILE`
pointer that processing the entry `KEY` appends. -/
theorem c1_plaintext_pointer_collision :
    sensitiveKey "KEY_FILE" = true ∧
    ("KEY_FILE", "/run/secrets/key") ∈ (lookup? c1CexArgs.service_envs "api").getD [] ∧
    secretCond c1CexArgs.use_secrets c1CexArgs.env "KEY_FILE" = true ∧
    ("KEY_FILE" ++ "=" ++ "/run/secrets/key") ∈ envAt (generateCompose c1CexArgs) 0 := by
  decide

/-- C1 witness: the specification scenario `DB_PASSWORD=abc` on a
production service with secrets enabled. -/
theorem c1_sensitive_env_secrets_wit :
    ("DB_PASSWORD" ++ "=" ++ "abc") ∉ (buildEntry c1WitArgs 0 (pyStrip "api")).environment ∧
    ("DB_PASSWORD" ++ "_FILE=/run/secrets/" ++ pyLower "DB_PASSWORD") ∈
      (buildEntry c1WitArgs 0 (pyStrip "api")).environment ∧
    ({ source := pyStrip "api" ++ "_" ++ pyLower "DB_PASSWORD"
       target := "/run/secrets/" ++ pyLower "DB_PASSWORD"
       mode := 0o400 } : SecretMount) ∈ (buildEntry c1WitArgs 0 (pyStrip "api")).secrets ∧
    pyStrip "api" ++ "_" ++ pyLower "DB_PASSWORD" ∈ (generateCompose c1WitArgs).secrets := by
  have h := c1_sensitive_env_secrets c1WitArgs 0 "api" "DB_PASSWORD" "abc" rfl
    (by decide) (by decide) (by decide) (by decide)
  exact ⟨h.2.1, h.2.2.1, h.2.2.2.1, h.2.2.2.2.1⟩
